import Mathlib

/-!
Shallow embedding of the order-lifecycle and ledger subsystem of the
marketplace backend (Node/Express + Mongoose), together with proofs about
the claims of its specification.

Conventions of the embedding:
* JavaScript numbers that hold money amounts are modelled as `ℚ`;
  `Math.round` is modelled as `⌊x + 1/2⌋` (round half up) and
  `Number(x.toFixed(2))` as rounding to two decimals with the same rule
  (all amounts in the code paths under study are non-negative).
* JavaScript strings are Lean `String`s; `toUpperCase` / `toLowerCase` /
  `trim` / `startsWith` / `includes` are re-implemented over `List Char`
  so that every definition reduces inside the kernel.
* A missing (`undefined`) string input is modelled as the empty string,
  which is exactly the set of falsy string values tested by `!s` in the
  source (`""`, `undefined`, `null` all take the falsy branch).
* Persistent state (Mongo documents) is modelled by explicit records and
  lists threaded through the functions; external carrier / gateway calls
  have no bearing on the claims under study and are omitted where the
  source merely logs their outcome.
-/

/-! ## JavaScript primitives -/

-- The arithmetic on `ℚ` is irreducible by default, which would keep `decide`
-- from evaluating the money computations below on concrete inputs.
attribute [local semireducible] Rat.add Rat.mul Rat.sub Rat.inv

/-- `Math.round x` in JavaScript: round half up.  Written with `Rat.floor`
so that it evaluates by `decide`; `jsRound_def` restates it with `⌊·⌋`. -/
def jsRound (q : ℚ) : ℤ := Rat.floor (q + 1/2)

theorem jsRound_def (q : ℚ) : jsRound q = ⌊q + 1/2⌋ := by
  rw [jsRound, Rat.floor_def', Rat.floor_def]

/-- `Number(x.toFixed(2))`: round to two decimal places (half up). -/
def round2 (q : ℚ) : ℚ := (jsRound (q * 100) : ℚ) / 100

/-- `String.prototype.toUpperCase` restricted to ASCII, which covers every
carrier status code. -/
def jsToUpper (s : String) : String := String.mk (s.data.map Char.toUpper)

/-- `String.prototype.toLowerCase` restricted to ASCII. -/
def jsToLower (s : String) : String := String.mk (s.data.map Char.toLower)

/-- `String.prototype.trim`. -/
def jsTrim (s : String) : String :=
  String.mk (((s.data.dropWhile Char.isWhitespace).reverse.dropWhile Char.isWhitespace).reverse)

/-- Whether `pre` is an initial segment of `l` (kernel-friendly). -/
def leadsWith : List Char → List Char → Bool
  | [], _ => true
  | _ :: _, [] => false
  | a :: as, b :: bs => a = b && leadsWith as bs

/-- `String.prototype.startsWith`. -/
def jsStartsWith (s pre : String) : Bool := leadsWith pre.data s.data

/-- Whether `needle` occurs as a contiguous sublist of `hay`. -/
def containsSub (hay needle : List Char) : Bool :=
  match hay with
  | [] => needle.isEmpty
  | _ :: t => leadsWith needle hay || containsSub t needle

/-- `String.prototype.includes`. -/
def jsIncludes (hay needle : String) : Bool := containsSub hay.data needle.data

/-- `a || b` for an optional value (JS falsy `undefined`/missing field). -/
def jsOrElse (a : Option String) (b : String) : String := a.getD b

/-- `discount || 0` where `discount` may be absent from the request body. -/
def jsNumOr (a : Option ℚ) (b : ℚ) : ℚ := a.getD b

/-! ## CarrierStatusMapper (`src/utils/rapidshypStatusMapper.js`) -/

/-- One entry of `STATUS_MAP` (the `isReturning` field is absent on most
entries in the source; `status.isReturning || false` normalises it, so we
store the normalised boolean). -/
structure StatusEntry where
  description : String
  internalStatus : String
  shippingStatus : String
  isReturning : Bool
  deriving Repr, DecidableEq

/-- `STATUS_MAP` from `src/utils/rapidshypStatusMapper.js` lines 7-41. -/
def STATUS_MAP : String → Option StatusEntry
  | "SCB" => some ⟨"Shipment Booked", "created", "pending", false⟩
  | "PSH" => some ⟨"Pickup Scheduled", "processing", "pending", false⟩
  | "OFP" => some ⟨"Out for Pickup", "processing", "pending", false⟩
  | "PUE" => some ⟨"Pick up Exception", "processing", "pending", false⟩
  | "PCN" => some ⟨"Pickup Cancelled", "cancelled", "cancelled", false⟩
  | "PUC" => some ⟨"Pickup Completed", "processing", "shipped", false⟩
  | "SPD" => some ⟨"Shipped/Dispatched", "processing", "shipped", false⟩
  | "INT" => some ⟨"In Transit", "processing", "shipped", false⟩
  | "RAD" => some ⟨"Reached at Destination", "processing", "shipped", false⟩
  | "DED" => some ⟨"Delivery Delayed", "processing", "shipped", false⟩
  | "OFD" => some ⟨"Out for Delivery", "processing", "shipped", false⟩
  | "DEL" => some ⟨"Delivered", "delivered", "delivered", false⟩
  | "UND" => some ⟨"Undelivered", "processing", "shipped", false⟩
  | "RTO_REQ" => some ⟨"RTO Requested", "cancelled", "shipped", true⟩
  | "RTO" => some ⟨"RTO Confirmed", "cancelled", "shipped", true⟩
  | "RTO_INT" => some ⟨"RTO In Transit", "cancelled", "shipped", true⟩
  | "RTO_RAD" => some ⟨"RTO - Reached at Destination", "cancelled", "shipped", true⟩
  | "RTO_OFD" => some ⟨"RTO Out for Delivery", "cancelled", "shipped", true⟩
  | "RTO_DEL" => some ⟨"RTO Delivered", "cancelled", "delivered", true⟩
  | "RTO_UND" => some ⟨"RTO Undelivered", "cancelled", "shipped", true⟩
  | "CAN" => some ⟨"Shipment Cancelled", "cancelled", "cancelled", false⟩
  | "ONH" => some ⟨"Shipment On Hold", "processing", "shipped", false⟩
  | "LST" => some ⟨"Shipment Lost", "cancelled", "cancelled", false⟩
  | "DMG" => some ⟨"Shipment Damaged", "processing", "shipped", false⟩
  | "MSR" => some ⟨"Shipment Misrouted", "processing", "shipped", false⟩
  | "DPO" => some ⟨"Shipment Disposed-Off", "cancelled", "cancelled", false⟩
  | _ => none

/-- Result of `getStatusDetails`: the `code` field is `none` on the
missing-code branch (the source object has no `code` key there). -/
structure StatusDetails where
  description : String
  internalStatus : String
  shippingStatus : String
  isReturning : Bool
  code : Option String
  deriving Repr, DecidableEq

/-- `getStatusDetails` from `src/utils/rapidshypStatusMapper.js` lines 48-77.
`!statusCode` in JS is true exactly for a missing or empty code; a missing
code is modelled by `""`. -/
def getStatusDetails (statusCode : String) : StatusDetails :=
  if statusCode = "" then
    ⟨"Unknown", "pending", "pending", false, none⟩
  else
    let code := jsToUpper statusCode
    match STATUS_MAP code with
    | some st => ⟨st.description, st.internalStatus, st.shippingStatus, st.isReturning, some code⟩
    | none => ⟨"Status: " ++ code, "processing", "shipped", false, some code⟩

/-- `getStatusDetails` lifted to an optional (possibly `undefined`) code:
`undefined` is falsy, like `""`. -/
def getStatusDetailsOpt (statusCode : Option String) : StatusDetails :=
  getStatusDetails (statusCode.getD "")

/-- `mapToOrderStatus` (lines 85-88); the second source argument is unused. -/
def mapToOrderStatus (statusCode : String) (_currentOrderStatus : String) : String :=
  (getStatusDetails statusCode).internalStatus

/-- `mapToShippingStatus` (lines 95-98). -/
def mapToShippingStatus (statusCode : String) : String :=
  (getStatusDetails statusCode).shippingStatus

/-- `isRTOStatus` (lines 105-108). -/
def isRTOStatus (statusCode : String) : Bool :=
  (getStatusDetails statusCode).isReturning || jsStartsWith (jsToUpper statusCode) "RTO"

/-! ## WebhookIngress (`exports.webhook`, rapidshyp shipping controller)

The carrier webhook handler locates the order, appends the raw payload to
the shipment event log, and — when the payload carries a `status` — applies
the mapper output to the order.  We embed the status-application block
(source lines 656-710): the fields below are exactly those this block
mutates.  Timestamp assignments (`deliveredAt`, `rtoDeliveredAt`) and the
event log are bookkeeping that no claim mentions and are omitted. -/

structure WebhookOrder where
  orderStatus : String
  shippingStatus : String
  shipmentStatus : String
  shipmentDescription : String
  shipmentReturning : Bool
  deriving Repr, DecidableEq

/-- The body of the `if (status)` block of the webhook handler, applied to
the already-normalised `statusCode` (`String(statusCode).toUpperCase().trim()`). -/
def applyWebhookStatusCore (o : WebhookOrder) (statusCode : String) : WebhookOrder :=
  let sd := getStatusDetails statusCode
  -- order.shipment.status = statusDetails.code || statusCode
  let o1 : WebhookOrder :=
    { o with shipmentStatus := jsOrElse sd.code statusCode,
             shipmentDescription := sd.description }
  let newOrderStatus := mapToOrderStatus statusCode o1.orderStatus
  let newShippingStatus := mapToShippingStatus statusCode
  -- if (newOrderStatus && newOrderStatus !== order.orderStatus)
  --   if (!(order.orderStatus === 'delivered' && newOrderStatus !== 'delivered'))
  let o2 : WebhookOrder :=
    if newOrderStatus ≠ "" ∧ newOrderStatus ≠ o1.orderStatus then
      if ¬(o1.orderStatus = "delivered" ∧ newOrderStatus ≠ "delivered") then
        { o1 with orderStatus := newOrderStatus }
      else o1
    else o1
  let o3 : WebhookOrder :=
    if newShippingStatus ≠ "" then { o2 with shippingStatus := newShippingStatus } else o2
  -- if (isRTOStatus(statusCode)) { isReturning = true; RTO/RTO_REQ => cancelled }
  let o4 : WebhookOrder :=
    if isRTOStatus statusCode then
      let t : WebhookOrder := { o3 with shipmentReturning := true }
      if statusCode = "RTO" ∨ statusCode = "RTO_REQ" then
        { t with orderStatus := "cancelled" }
      else t
    else o3
  let o5 : WebhookOrder :=
    if statusCode = "DEL" then
      { o4 with orderStatus := "delivered", shippingStatus := "delivered" }
    else o4
  if statusCode = "RTO_DEL" then
    { o5 with orderStatus := "cancelled", shippingStatus := "delivered" }
  else o5

/-- The `if (status) { ... }` block of the webhook handler: a falsy
(missing/empty) `status` leaves the order unchanged; otherwise the raw code
is uppercased and trimmed and the block above runs.  (When the payload
carries `status` as an object the source first extracts `status.code` or
`status.status`; `status` here is that extracted string.) -/
def applyWebhookStatus (o : WebhookOrder) (status : String) : WebhookOrder :=
  if status = "" then o
  else applyWebhookStatusCore o (jsTrim (jsToUpper status))

/-! ## `updateOrderStatus` (`src/controllers/orderController.js` lines 583-613)

State relevant to the status-update handler: the order fields it reads and
writes, plus the seller wallet balance (`User.walletBalance`, mutated via
`$inc`).  `commission`/`sellerEarnings` are `Option ℚ` because legacy
records may lack them (`typeof order.commission !== 'number'`). -/

structure UpdOrder where
  orderStatus : String
  paymentStatus : String
  refundStatus : Option String
  paymentMethod : String
  itemsPrice : ℚ
  commission : Option ℚ
  sellerEarnings : Option ℚ
  deriving Repr, DecidableEq

/-- `updateOrderStatus`: `none` models the 400 rejection for
cancelled/refund-pending/refunded orders; otherwise the updated order and
seller wallet balance are returned.  The wallet credit condition mirrors
`if (sellerDocForUser?.userId && order.sellerEarnings)`: the seller doc is
assumed resolvable and `order.sellerEarnings` is truthy iff non-zero. -/
def updateOrderStatus (o : UpdOrder) (wallet : ℚ) (status : String) :
    Option (UpdOrder × ℚ) :=
  if o.orderStatus = "cancelled" ∨ o.refundStatus = some "pending" ∨
      o.paymentStatus = "refunded" then
    none
  else
    let o1 : UpdOrder := { o with orderStatus := status }
    if o.paymentMethod = "cod" ∧ status = "delivered" ∧ o.paymentStatus ≠ "paid" then
      let o2 : UpdOrder := { o1 with paymentStatus := "paid" }
      let o3 : UpdOrder :=
        if o2.commission.isNone ∨ o2.sellerEarnings.isNone then
          let rate : ℚ := 7/100
          let commission := round2 (o2.itemsPrice * rate)
          let sellerEarnings := round2 (o2.itemsPrice - commission)
          { o2 with commission := some commission, sellerEarnings := some sellerEarnings }
        else o2
      let earnings := o3.sellerEarnings.getD 0
      let wallet1 := if earnings ≠ 0 then wallet + earnings else wallet
      some (o3, wallet1)
    else
      some (o1, wallet)

/-! ## `cancelOrder` / `requestCancelOrder` (orderController lines 616-760) -/

/-- Order state read and written by the cancellation handlers.
`shipmentId` is `none` when the order has no shipment sub-record
(`order.shipment?.shipmentId` is falsy). -/
structure CancelOrder where
  orderStatus : String
  shippingStatus : String
  shipmentId : Option String
  shipmentStatus : String
  shipmentReturning : Bool
  cancellationReason : String
  cancellationRequested : Bool
  cancellationRequestReason : String
  deriving Repr, DecidableEq

/-- `cancelOrder`: unconditionally sets `orderStatus = 'cancelled'` and, if a
live shipment exists, marks it returning with status `'rto'`.  The carrier
RTO-shipment API call inside is logged-and-continue and does not alter the
fields above beyond the event log, so it is omitted. -/
def cancelOrder (o : CancelOrder) (reason : String) : CancelOrder :=
  let o1 : CancelOrder := { o with orderStatus := "cancelled", cancellationReason := reason }
  if o.shipmentId.isSome ∧ o.shipmentStatus ≠ "cancelled" ∧ o.shipmentStatus ≠ "returned" then
    { o1 with shipmentReturning := true, shipmentStatus := "rto" }
  else o1

/-- `requestCancelOrder`: flags a cancellation request for admin review;
`none` models the 400 rejection when the order is already
shipped/delivered/cancelled/refunded.  It never touches `orderStatus`. -/
def requestCancelOrder (o : CancelOrder) (reason : String) : Option CancelOrder :=
  if o.orderStatus = "shipped" ∨ o.orderStatus = "delivered" ∨
      o.orderStatus = "cancelled" ∨ o.orderStatus = "refunded" then
    none
  else
    some { o with cancellationRequested := true, cancellationRequestReason := reason }

/-! ## PricingEngine pieces shared by the checkout paths

`createOrder` (COD) and `createOrderWithPayment` (online) in
`src/controllers/orderController.js` both compute, per seller group:
`itemsPrice = Σ price*qty`, `shippingPrice = 0`, `taxPrice = 0`,
`totalPrice = itemsPrice + shippingPrice + taxPrice - (discount || 0)`,
`commission = Number((itemsPrice*0.07).toFixed(2))`,
`sellerEarnings = Number((itemsPrice - commission).toFixed(2))`. -/

/-- Commission and seller earnings at the global 7% rate
(orderController lines 61-64 and 233-236). -/
def commissionAndEarnings (itemsPrice : ℚ) : ℚ × ℚ :=
  let rate : ℚ := 7/100
  let commission := round2 (itemsPrice * rate)
  let sellerEarnings := round2 (itemsPrice - commission)
  (commission, sellerEarnings)

/-- `totalPrice` of a created order (orderController lines 57-60 / 228-231);
`discount` is the raw request-body value, absent modelled as `none`. -/
def computeTotalPrice (itemsPrice shippingPrice taxPrice : ℚ) (discount : Option ℚ) : ℚ :=
  itemsPrice + shippingPrice + taxPrice - jsNumOr discount 0

/-! ## Order creation (cart splitting) -/

/-- A product document, restricted to the fields the checkout reads/writes. -/
structure Product where
  id : String
  name : String
  seller : String
  price : ℚ
  stock : ℤ
  totalSold : ℤ
  deriving Repr, DecidableEq

/-- One entry of the request body `items` array. -/
structure ReqItem where
  product : String
  seller : String
  quantity : ℕ
  deriving Repr, DecidableEq

/-- A snapshotted order line item. -/
structure OrderItem where
  product : String
  name : String
  price : ℚ
  quantity : ℕ
  deriving Repr, DecidableEq

/-- A created `Order` document, restricted to the pricing/status fields
(address/coupon/payment-id snapshots carry no claim content). -/
structure OrderRec where
  seller : String
  orderItems : List OrderItem
  itemsPrice : ℚ
  taxPrice : ℚ
  shippingPrice : ℚ
  totalPrice : ℚ
  commission : ℚ
  sellerEarnings : ℚ
  discount : ℚ
  orderStatus : String
  paymentStatus : String
  deriving Repr, DecidableEq

/-- `Product.findById`. -/
def findProduct (store : List Product) (pid : String) : Option Product :=
  store.find? (fun p => p.id = pid)

/-- `product.save()`: replace the document with the same id. -/
def saveProduct (store : List Product) (p : Product) : List Product :=
  store.map (fun q => if q.id = p.id then p else q)

/-- First-occurrence order of the distinct sellers of the cart: the key set
of the JS object `itemsBySeller` (string keys keep insertion order). -/
def sellersIn (items : List ReqItem) : List String :=
  items.foldl (fun acc it => if it.seller ∈ acc then acc else acc ++ [it.seller]) []

/-- `itemsBySeller` as an association list in `Object.keys` order: each
seller maps to its cart items in their original order.  This is exactly the
extension of the JS grouping loop (orderController lines 19-26 / 173-184). -/
def groupBySeller (items : List ReqItem) : List (String × List ReqItem) :=
  (sellersIn items).map (fun s => (s, items.filter (fun it => it.seller = s)))

/-- Per-item processing of the COD path (orderController lines 32-55):
look up the product, validate it and its seller, bump `totalSold`, snapshot
the line item.  A thrown error aborts the remaining items but the saves
already awaited stay applied (`Promise.all` is modelled left-to-right). -/
def processItemsCOD :
    List Product → String → List ReqItem → List Product × List OrderItem × Option String
  | store, _, [] => (store, [], none)
  | store, sellerId, it :: rest =>
    match findProduct store it.product with
    | none => (store, [], some "OrderProductNotFound")
    | some p =>
      if p.seller ≠ sellerId then (store, [], some "OrderProductSellerMismatch")
      else
        let p2 : Product := { p with totalSold := p.totalSold + it.quantity }
        let store1 := saveProduct store p2
        match processItemsCOD store1 sellerId rest with
        | (st2, ois, err) => (st2, ⟨p.id, p.name, p.price, it.quantity⟩ :: ois, err)

/-- Per-item processing of the online path (orderController lines 192-225):
additionally checks `product.stock < item.quantity` (`InsufficientStock`)
and decrements stock. -/
def processItemsPay :
    List Product → String → List ReqItem → List Product × List OrderItem × Option String
  | store, _, [] => (store, [], none)
  | store, sellerId, it :: rest =>
    match findProduct store it.product with
    | none => (store, [], some "OrderProductNotFound")
    | some p =>
      if p.seller ≠ sellerId then (store, [], some "OrderProductSellerMismatch")
      else if p.stock < (it.quantity : ℤ) then (store, [], some "InsufficientStock")
      else
        let p2 : Product :=
          { p with stock := p.stock - it.quantity, totalSold := p.totalSold + it.quantity }
        let store1 := saveProduct store p2
        match processItemsPay store1 sellerId rest with
        | (st2, ois, err) => (st2, ⟨p.id, p.name, p.price, it.quantity⟩ :: ois, err)

/-- Order document built for one seller group on the COD path
(orderController lines 56-92): status `pending`/`pending`. -/
def mkOrderCOD (sellerId : String) (ois : List OrderItem) (discount : Option ℚ) : OrderRec :=
  let itemsPrice := (ois.map (fun i => i.price * (i.quantity : ℚ))).sum
  let shippingPrice : ℚ := 0
  let taxPrice : ℚ := 0
  let totalPrice := computeTotalPrice itemsPrice shippingPrice taxPrice discount
  let (commission, sellerEarnings) := commissionAndEarnings itemsPrice
  { seller := sellerId, orderItems := ois, itemsPrice, taxPrice, shippingPrice, totalPrice,
    commission, sellerEarnings, discount := jsNumOr discount 0,
    orderStatus := "pending", paymentStatus := "pending" }

/-- Order document built for one seller group on the online path
(orderController lines 227-276): status `confirmed`/`paid`. -/
def mkOrderPay (sellerId : String) (ois : List OrderItem) (discount : Option ℚ) : OrderRec :=
  let itemsPrice := (ois.map (fun i => i.price * (i.quantity : ℚ))).sum
  let shippingPrice : ℚ := 0
  let taxPrice : ℚ := 0
  let totalPrice := computeTotalPrice itemsPrice shippingPrice taxPrice discount
  let (commission, sellerEarnings) := commissionAndEarnings itemsPrice
  { seller := sellerId, orderItems := ois, itemsPrice, taxPrice, shippingPrice, totalPrice,
    commission, sellerEarnings, discount := jsNumOr discount 0,
    orderStatus := "confirmed", paymentStatus := "paid" }

/-- One seller group on the COD path: items processed, then the order saved
(only when no item threw). -/
def processGroupCOD (store : List Product) (sellerId : String) (items : List ReqItem)
    (discount : Option ℚ) : List Product × Option OrderRec × Option String :=
  match processItemsCOD store sellerId items with
  | (st, _, some e) => (st, none, some e)
  | (st, ois, none) => (st, some (mkOrderCOD sellerId ois discount), none)

/-- One seller group on the online path. -/
def processGroupPay (store : List Product) (sellerId : String) (items : List ReqItem)
    (discount : Option ℚ) : List Product × Option OrderRec × Option String :=
  match processItemsPay store sellerId items with
  | (st, _, some e) => (st, none, some e)
  | (st, ois, none) => (st, some (mkOrderPay sellerId ois discount), none)

/-- The `for (const sellerId of Object.keys(itemsBySeller))` loop: on a
thrown error the loop aborts, but orders already saved for earlier seller
groups remain persisted (there is no transaction/rollback in the source). -/
def processGroups
    (f : List Product → String → List ReqItem → List Product × Option OrderRec × Option String) :
    List Product → List (String × List ReqItem) → List Product × List OrderRec × Option String
  | store, [] => (store, [], none)
  | store, (s, its) :: rest =>
    match f store s its with
    | (st1, some ord, none) =>
      match processGroups f st1 rest with
      | (st2, ords, err) => (st2, ord :: ords, err)
    | (st1, _, err) => (st1, [], err)

/-- `createOrder` (COD checkout, orderController lines 11-119), restricted
to its order-creating core: cart split by seller, per-group order creation.
Coupon bookkeeping and cart clearing are non-blocking side effects with no
claim content. -/
def createOrder (store : List Product) (items : List ReqItem) (discount : Option ℚ) :
    List Product × List OrderRec × Option String :=
  processGroups (fun st s its => processGroupCOD st s its discount) store (groupBySeller items)

/-- `createOrderWithPayment` (online checkout, orderController lines
122-322) after signature verification and capture check have succeeded:
identical split, with stock check/decrement, confirmed/paid orders.
A mid-loop throw is answered with HTTP 500, but everything already saved
stays saved. -/
def createOrderWithPayment (store : List Product) (items : List ReqItem) (discount : Option ℚ) :
    List Product × List OrderRec × Option String :=
  processGroups (fun st s its => processGroupPay st s its discount) store (groupBySeller items)

/-! ## ReturnLifecycle charge allocation
(`src/controllers/returnController.js`, `approveReturnRequest`) -/

/-- Keywords indicating the vendor sent a wrong size (returnController
lines 145-150). -/
def vendorFaultKeywords : List String :=
  ["wrong size sent", "wrong size", "size mismatch", "ordered different size but got",
   "vendor sent wrong", "wrong one sent", "not what ordered", "received wrong size",
   "sent wrong", "wrong variant", "different size received", "size sent wrong",
   "ordered one size but got", "wrong size delivered"]

/-- Keywords indicating the customer ordered a wrong size (lines 153-157). -/
def customerFaultKeywords : List String :=
  ["ordered wrong", "my mistake", "i ordered wrong", "wrong selection",
   "mistake in order", "ordered different", "wrong choice", "my fault",
   "ordered by mistake", "chose wrong", "selected wrong"]

/-- Customer-changed-mind keywords (lines 174-180). -/
def customerChangedMindKeywords : List String :=
  ["changed mind", "change mind", "not needed", "don\x27t want", "dont want",
   "no longer need", "no longer want", "don\x27t need", "dont need",
   "changed my mind", "not required", "not necessary", "ordered by mistake",
   "buyer\x27s remorse", "buyers remorse", "unwanted", "not wanted", "no need",
   "unnecessary", "regret", "cancelled", "changed decision"]

/-- Scenario resolution (returnController lines 116-194), first match wins.
Inputs: the associated order's `orderStatus`, `paymentMethod` and
`shipment?.isReturning` flag, and the request's `reasonCategory` and
`reasonText`. -/
def determineScenario (orderStatus paymentMethod : String) (shipmentReturning : Bool)
    (reasonCategory reasonText : String) : String :=
  let reasonTextLower := jsToLower reasonText
  if orderStatus = "cancelled" ∧ paymentMethod = "cod" then "rto_cod"
  else if shipmentReturning then "rto_online"
  else if reasonCategory = "wrong_item" then "wrong_item"
  else if reasonCategory = "defective" then "defective"
  else if reasonCategory = "not_as_described" then "not_as_described"
  else if reasonCategory = "size_issue" then
    if vendorFaultKeywords.any (fun k => jsIncludes reasonTextLower k) then
      "size_issue_vendor_fault"
    else if customerFaultKeywords.any (fun k => jsIncludes reasonTextLower k) then
      "size_issue_customer_fault"
    else "size_issue_vendor_fault"
  else if reasonCategory = "other" then
    if customerChangedMindKeywords.any (fun k => jsIncludes reasonTextLower k) then
      "customer_changed_mind"
    else "other"
  else "other"

/-- Vendor/admin shares for a scenario (returnController lines 196-242).
The two 50/50 branches round each share with `Math.round` and then patch
the admin share so that the total matches exactly. -/
def computeCharges (scenario : String) (returnCharge : ℚ) : ℚ × ℚ :=
  if scenario = "rto_cod" ∨ scenario = "rto_online" then (returnCharge, 0)
  else if scenario = "wrong_item" then (returnCharge, 0)
  else if scenario = "defective" then (returnCharge, 0)
  else if scenario = "not_as_described" then (returnCharge, 0)
  else if scenario = "size_issue_vendor_fault" then (returnCharge, 0)
  else if scenario = "size_issue_customer_fault" then
    let vendorCharge : ℚ := (jsRound (returnCharge * (1/2)) : ℚ)
    let adminCharge : ℚ := (jsRound (returnCharge * (1/2)) : ℚ)
    let total := vendorCharge + adminCharge
    let adminCharge := if total ≠ returnCharge then returnCharge - vendorCharge else adminCharge
    (vendorCharge, adminCharge)
  else if scenario = "customer_changed_mind" then
    let vendorCharge : ℚ := (jsRound (returnCharge * (1/2)) : ℚ)
    let adminCharge : ℚ := (jsRound (returnCharge * (1/2)) : ℚ)
    let total := vendorCharge + adminCharge
    let adminCharge := if total ≠ returnCharge then returnCharge - vendorCharge else adminCharge
    (vendorCharge, adminCharge)
  else (returnCharge, 0)

/-- `doc.chargeAllocation` as stored by `approveReturnRequest`. -/
structure ChargeAllocation where
  scenario : String
  vendorCharge : ℚ
  adminCharge : ℚ
  totalReturnCharge : ℚ
  allocationApplied : Bool
  deriving Repr, DecidableEq

/-- The allocation persisted by `approveReturnRequest` (lines 108-251 and
311-313): the return charge is estimated as the order's forward courier
cost, the scenario resolved, shares computed, and `allocationApplied` set
exactly when the deduction block runs
(`returnCharge > 0 && (vendorCharge > 0 || adminCharge > 0)`).
The wallet `$inc` deductions themselves are logged-and-continue and do not
feed back into the stored allocation. -/
def approveAllocation (orderStatus paymentMethod : String) (shipmentReturning : Bool)
    (reasonCategory reasonText : String) (forwardCharge : ℚ) : ChargeAllocation :=
  let returnCharge := forwardCharge
  let scenario := determineScenario orderStatus paymentMethod shipmentReturning
    reasonCategory reasonText
  let (vendorCharge, adminCharge) := computeCharges scenario returnCharge
  { scenario, vendorCharge, adminCharge, totalReturnCharge := returnCharge,
    allocationApplied := if returnCharge > 0 ∧ (vendorCharge > 0 ∨ adminCharge > 0)
      then true else false }

/-- Re-derivation of the allocation when the carrier reports the actual
freight cost (returnController lines 385-401): scale both shares by
`newReturnCharge / totalReturnCharge`, `Math.round` each, then patch the
admin share so the total matches exactly. -/
def reallocateOnActualFreight (ca : ChargeAllocation) (newReturnCharge : ℚ) :
    ChargeAllocation :=
  let chargeRatio := if ca.totalReturnCharge > 0 then newReturnCharge / ca.totalReturnCharge else 1
  let vendorCharge : ℚ := (jsRound (ca.vendorCharge * chargeRatio) : ℚ)
  let adminCharge : ℚ := (jsRound (ca.adminCharge * chargeRatio) : ℚ)
  let adminCharge :=
    if vendorCharge + adminCharge ≠ newReturnCharge then newReturnCharge - vendorCharge
    else adminCharge
  { ca with totalReturnCharge := newReturnCharge,
            vendorCharge := vendorCharge, adminCharge := adminCharge }

/-! ## Helper lemmas -/

/-- Rounding to two decimals moves a value by at most half a cent. -/
theorem abs_round2_sub_le (x : ℚ) : |round2 x - x| ≤ 1/200 := by
  have h1 : ((⌊x * 100 + 1/2⌋ : ℤ) : ℚ) ≤ x * 100 + 1/2 := Int.floor_le _
  have h2 : x * 100 + 1/2 < (⌊x * 100 + 1/2⌋ : ℤ) + 1 := Int.lt_floor_add_one _
  rw [round2, jsRound_def, abs_le]
  constructor <;> linarith

/-- The vendor/admin shares always add up to the return charge. -/
theorem computeCharges_sum (scenario : String) (returnCharge : ℚ) :
    (computeCharges scenario returnCharge).1 + (computeCharges scenario returnCharge).2 =
      returnCharge := by
  unfold computeCharges
  split_ifs with h1 h2 h3 h4 h5 h6 h7 <;> simp_all <;> split_ifs with h <;> simp_all

/-- In the 50/50 scenarios the vendor share is the raw `Math.round` of half
the charge and the admin share absorbs the rounding remainder. -/
theorem computeCharges_customer_changed_mind (returnCharge : ℚ) :
    computeCharges "customer_changed_mind" returnCharge =
      ((jsRound (returnCharge * (1/2)) : ℚ),
       returnCharge - (jsRound (returnCharge * (1/2)) : ℚ)) := by
  have hsum := computeCharges_sum "customer_changed_mind" returnCharge
  have hv : (computeCharges "customer_changed_mind" returnCharge).1 =
      ((jsRound (returnCharge * (1/2)) : ℤ) : ℚ) := rfl
  have ha : (computeCharges "customer_changed_mind" returnCharge).2 =
      returnCharge - ((jsRound (returnCharge * (1/2)) : ℤ) : ℚ) := by
    rw [← hv]; linarith
  calc computeCharges "customer_changed_mind" returnCharge
      = ((computeCharges "customer_changed_mind" returnCharge).1,
         (computeCharges "customer_changed_mind" returnCharge).2) := rfl
    _ = _ := by rw [hv, ha]

/-- The re-derived allocation also sums exactly to its new total. -/
theorem reallocate_sum (ca : ChargeAllocation) (n : ℚ) :
    (reallocateOnActualFreight ca n).vendorCharge + (reallocateOnActualFreight ca n).adminCharge
      = (reallocateOnActualFreight ca n).totalReturnCharge := by
  simp only [reallocateOnActualFreight]
  split_ifs with h1 h2 h3 <;> simp_all

/-- Claim C1: every allocation stored by `approveReturnRequest` satisfies
`vendorCharge + adminCharge = totalReturnCharge` exactly; in the 50/50
scenarios the rounding remainder lands on the admin (platform) share; and
the equality is preserved by the proportional re-derivation performed when
the carrier reports the actual freight cost. -/
theorem claim_C1_allocation_sum_exact :
    (∀ orderStatus paymentMethod shipmentReturning reasonCategory reasonText forwardCharge,
      (approveAllocation orderStatus paymentMethod shipmentReturning reasonCategory reasonText
        forwardCharge).vendorCharge +
      (approveAllocation orderStatus paymentMethod shipmentReturning reasonCategory reasonText
        forwardCharge).adminCharge =
      (approveAllocation orderStatus paymentMethod shipmentReturning reasonCategory reasonText
        forwardCharge).totalReturnCharge) ∧
    (∀ returnCharge : ℚ, computeCharges "customer_changed_mind" returnCharge =
      ((jsRound (returnCharge * (1/2)) : ℚ),
       returnCharge - (jsRound (returnCharge * (1/2)) : ℚ))) ∧
    (∀ (ca : ChargeAllocation) (newReturnCharge : ℚ),
      (reallocateOnActualFreight ca newReturnCharge).vendorCharge +
      (reallocateOnActualFreight ca newReturnCharge).adminCharge =
      (reallocateOnActualFreight ca newReturnCharge).totalReturnCharge) := by
  refine ⟨?_, computeCharges_customer_changed_mind, reallocate_sum⟩
  intro os pm ret rcat rt fwd
  have h := computeCharges_sum (determineScenario os pm ret rcat rt) fwd
  exact h

/-- Claim C2: for every created order, commission is two-decimal-rounded 7%
of `itemsPrice`, `commission + sellerEarnings` equals `itemsPrice` within
one rounding unit, and the worked example `itemsPrice = 1000` yields
`(70, 930)`. -/
theorem claim_C2_commission_earnings :
    (∀ itemsPrice : ℚ,
      (commissionAndEarnings itemsPrice).1 = round2 (itemsPrice * (7/100)) ∧
      |(commissionAndEarnings itemsPrice).1 + (commissionAndEarnings itemsPrice).2 - itemsPrice|
        ≤ 1/100) ∧
    (∀ (s : String) (ois : List OrderItem) (d : Option ℚ),
      (mkOrderCOD s ois d).commission =
        (commissionAndEarnings (mkOrderCOD s ois d).itemsPrice).1 ∧
      (mkOrderCOD s ois d).sellerEarnings =
        (commissionAndEarnings (mkOrderCOD s ois d).itemsPrice).2) ∧
    (∀ (s : String) (ois : List OrderItem) (d : Option ℚ),
      (mkOrderPay s ois d).commission =
        (commissionAndEarnings (mkOrderPay s ois d).itemsPrice).1 ∧
      (mkOrderPay s ois d).sellerEarnings =
        (commissionAndEarnings (mkOrderPay s ois d).itemsPrice).2) ∧
    commissionAndEarnings 1000 = (70, 930) := by
  refine ⟨?_, fun s ois d => ⟨rfl, rfl⟩, fun s ois d => ⟨rfl, rfl⟩, by decide⟩
  intro ip
  refine ⟨rfl, ?_⟩
  have h := abs_round2_sub_le (ip - round2 (ip * (7/100)))
  have he1 : (commissionAndEarnings ip).1 = round2 (ip * (7/100)) := rfl
  have he2 : (commissionAndEarnings ip).2 = round2 (ip - round2 (ip * (7/100))) := rfl
  rw [he1, he2,
    show round2 (ip * (7/100)) + round2 (ip - round2 (ip * (7/100))) - ip
       = round2 (ip - round2 (ip * (7/100))) - (ip - round2 (ip * (7/100))) from by ring]
  calc |round2 (ip - round2 (ip * (7/100))) - (ip - round2 (ip * (7/100)))|
      ≤ 1/200 := h
    _ ≤ 1/100 := by norm_num

/-- Claim C7 counterexample: `cancelOrder` moves even a `delivered` order to
`cancelled` — the handler has no state guard at all. -/
theorem claim_C7_counterexample :
    (cancelOrder ⟨"delivered", "delivered", none, "", false, "", false, ""⟩
        "changed mind").orderStatus = "cancelled" ∧
    (⟨"delivered", "delivered", none, "", false, "", false, ""⟩ : CancelOrder).orderStatus
      = "delivered" := by decide

/-- Claim C7 (amended): only the user-facing `requestCancelOrder` refuses
shipped/delivered orders, and it never changes `orderStatus` itself; the
direct `cancelOrder` operation sets `cancelled` from every state, including
`shipped` and `delivered`. -/
theorem claim_C7_cancel_guards :
    (∀ (o : CancelOrder) (reason : String),
      o.orderStatus = "shipped" ∨ o.orderStatus = "delivered" →
      requestCancelOrder o reason = none) ∧
    (∀ (o o2 : CancelOrder) (reason : String),
      requestCancelOrder o reason = some o2 → o2.orderStatus = o.orderStatus) ∧
    (∀ (o : CancelOrder) (reason : String), (cancelOrder o reason).orderStatus = "cancelled") := by
  refine ⟨?_, ?_, ?_⟩
  · intro o r h
    unfold requestCancelOrder
    rcases h with h | h <;> simp [h]
  · intro o o2 r h
    unfold requestCancelOrder at h
    split_ifs at h
    simp only [Option.some.injEq] at h
    subst h
    rfl
  · intro o r
    unfold cancelOrder
    split_ifs <;> rfl

theorem claim_C7_cancel_guards_witness :
    requestCancelOrder ⟨"delivered", "delivered", none, "", false, "", false, ""⟩ "x" = none ∧
    (⟨"pending", "pending", none, "", false, "", true, "x"⟩ : CancelOrder).orderStatus =
      (⟨"pending", "pending", none, "", false, "", false, ""⟩ : CancelOrder).orderStatus :=
  ⟨claim_C7_cancel_guards.1 _ "x" (Or.inr rfl),
   claim_C7_cancel_guards.2.1 ⟨"pending", "pending", none, "", false, "", false, ""⟩ _ "x"
     (by decide)⟩

/-- Claim C8 counterexample: the empty (missing) carrier code is not a key
of `STATUS_MAP`, yet `getStatusDetails` answers the `pending` triple rather
than the unknown-code default `{processing, shipped, false}`. -/
theorem claim_C8_counterexample :
    STATUS_MAP (jsToUpper "") = none ∧
    ¬((getStatusDetails "").internalStatus = "processing" ∧
      (getStatusDetails "").shippingStatus = "shipped" ∧
      (getStatusDetails "").isReturning = false) := by decide

/-- Claim C8 (amended): every NONEMPTY code whose uppercase form is not a
key of `STATUS_MAP` maps to the default triple `{processing, shipped,
false}`, and `isRTOStatus` answers `true` for every code beginning with
`RTO`, whether or not the code is in the table. -/
theorem claim_C8_unknown_code_default :
    (∀ code : String, code ≠ "" → STATUS_MAP (jsToUpper code) = none →
      (getStatusDetails code).internalStatus = "processing" ∧
      (getStatusDetails code).shippingStatus = "shipped" ∧
      (getStatusDetails code).isReturning = false) ∧
    (∀ code : String, jsStartsWith (jsToUpper code) "RTO" = true → isRTOStatus code = true) := by
  constructor
  · intro code hne hm
    simp [getStatusDetails, hne, hm]
  · intro code h
    unfold isRTOStatus
    rw [h, Bool.or_true]

theorem claim_C8_unknown_code_default_witness :
    ((getStatusDetails "XYZ").internalStatus = "processing" ∧
     (getStatusDetails "XYZ").shippingStatus = "shipped" ∧
     (getStatusDetails "XYZ").isReturning = false) ∧
    isRTOStatus "rto_foo" = true :=
  ⟨claim_C8_unknown_code_default.1 "XYZ" (by decide) (by decide),
   claim_C8_unknown_code_default.2 "rto_foo" (by decide)⟩

/-- Claim C9 counterexample: the checkout does not clamp the discount — a
discount of 200 against a 100-rupee cart persists an order with
`totalPrice = -100`. -/
theorem claim_C9_counterexample :
    (createOrder [⟨"p1", "A", "s1", 100, 5, 0⟩] [⟨"p1", "s1", 1⟩] (some 200)).2.1.map
        OrderRec.totalPrice = [-100] ∧
    ((-100 : ℚ) < 0) ∧
    computeTotalPrice 100 0 0 (some 200) = -100 := by decide

/-- Claim C9 (amended): every created order satisfies
`totalPrice = itemsPrice + shippingPrice + taxPrice - (discount || 0)`, but
the discount is NOT clamped: an oversized discount makes `totalPrice`
negative. -/
theorem claim_C9_total_price_invariant :
    (∀ (s : String) (ois : List OrderItem) (d : Option ℚ),
      (mkOrderCOD s ois d).totalPrice =
        (mkOrderCOD s ois d).itemsPrice + (mkOrderCOD s ois d).shippingPrice +
          (mkOrderCOD s ois d).taxPrice - jsNumOr d 0 ∧
      (mkOrderCOD s ois d).discount = jsNumOr d 0) ∧
    (∀ (s : String) (ois : List OrderItem) (d : Option ℚ),
      (mkOrderPay s ois d).totalPrice =
        (mkOrderPay s ois d).itemsPrice + (mkOrderPay s ois d).shippingPrice +
          (mkOrderPay s ois d).taxPrice - jsNumOr d 0 ∧
      (mkOrderPay s ois d).discount = jsNumOr d 0) ∧
    (mkOrderCOD "s1" [⟨"p1", "A", 100, 1⟩] (some 200)).totalPrice < 0 :=
  ⟨fun _ _ _ => ⟨rfl, rfl⟩, fun _ _ _ => ⟨rfl, rfl⟩, by decide⟩

/-- Claim C10: a missing or empty carrier status code yields
`{internalStatus: pending, shippingStatus: pending, isReturning: false}` —
an internal status outside the normalized set
`{created, processing, delivered, cancelled}` and different from the
unknown-code default `{processing, shipped, false}`. -/
theorem claim_C10_missing_code_pending :
    getStatusDetails "" = ⟨"Unknown", "pending", "pending", false, none⟩ ∧
    getStatusDetailsOpt none = ⟨"Unknown", "pending", "pending", false, none⟩ ∧
    ¬("pending" ∈ (["created", "processing", "delivered", "cancelled"] : List String)) ∧
    (getStatusDetails "").internalStatus ≠ "processing" ∧
    (getStatusDetails "").shippingStatus ≠ "shipped" := by decide

/-- Claim C3: for a COD order, the seller-wallet credit triggered by moving
the order to `delivered` happens at most once — a second
`updateOrderStatus(delivered)` on the result succeeds but leaves the wallet
balance unchanged (the first transition set `paymentStatus = 'paid'`, which
disables the credit branch). -/
theorem claim_C3_cod_delivery_credit_once :
    ∀ (o : UpdOrder) (w : ℚ) (o1 : UpdOrder) (w1 : ℚ),
      o.paymentMethod = "cod" →
      updateOrderStatus o w "delivered" = some (o1, w1) →
      (updateOrderStatus o1 w1 "delivered").map Prod.snd = some w1 := by
  intro o w o1 w1 hpm h
  by_cases hg1 : o.orderStatus = "cancelled"
  · simp [updateOrderStatus, hg1] at h
  by_cases hg2 : o.refundStatus = some "pending"
  · simp [updateOrderStatus, hg2] at h
  by_cases hg3 : o.paymentStatus = "refunded"
  · simp [updateOrderStatus, hg3] at h
  by_cases hps : o.paymentStatus = "paid"
  · simp [updateOrderStatus, hg1, hg2, hg3, hps, hpm] at h
    obtain ⟨ho1, hw1⟩ := h
    subst ho1
    subst hw1
    simp [updateOrderStatus, hg2, hps]
  · simp [updateOrderStatus, hg1, hg2, hg3, hps, hpm] at h
    obtain ⟨ho1, hw1⟩ := h
    subst ho1
    subst hw1
    simp [updateOrderStatus, hg2, apply_ite]

theorem claim_C3_cod_delivery_credit_once_witness :
    (updateOrderStatus ⟨"delivered", "paid", none, "cod", 1000, some 70, some 930⟩ 930
        "delivered").map Prod.snd = some 930 :=
  claim_C3_cod_delivery_credit_once
    ⟨"shipped", "pending", none, "cod", 1000, some 70, some 930⟩ 0
    ⟨"delivered", "paid", none, "cod", 1000, some 70, some 930⟩ 930
    (by decide) (by decide)

/-- On a delivered order, the webhook status block leaves `orderStatus`
untouched except through the RTO special cases. -/
theorem applyWebhookStatusCore_delivered (o : WebhookOrder) (c : String)
    (h : o.orderStatus = "delivered") :
    (applyWebhookStatusCore o c).orderStatus =
      if c = "RTO" ∨ c = "RTO_REQ" ∨ c = "RTO_DEL" then "cancelled" else "delivered" := by
  obtain ⟨os, ss, shs, sd, ret⟩ := o
  simp only [WebhookOrder.orderStatus] at h
  subst h
  by_cases h1 : c = "RTO"
  · subst h1; rfl
  by_cases h2 : c = "RTO_REQ"
  · subst h2; rfl
  by_cases h3 : c = "RTO_DEL"
  · subst h3; rfl
  rw [if_neg (by simp [h1, h2, h3])]
  by_cases h4 : c = "DEL"
  · subst h4; rfl
  simp only [applyWebhookStatusCore]
  split_ifs with hA hB hC hD hE hF hG <;> simp_all

/-- Claim C6 counterexample: a `delivered` order that receives an `RTO`
webhook is regressed to `cancelled` — the monotonic guard is bypassed by
the RTO branch. -/
theorem claim_C6_counterexample :
    (⟨"delivered", "delivered", "DEL", "Delivered", false⟩ : WebhookOrder).orderStatus
        = "delivered" ∧
    (applyWebhookStatus ⟨"delivered", "delivered", "DEL", "Delivered", false⟩
        "RTO").orderStatus = "cancelled" := by decide

/-- Claim C6 (amended): processing a webhook on a `delivered` order keeps
`orderStatus = 'delivered'` for every carrier status code EXCEPT the codes
`RTO`, `RTO_REQ` and `RTO_DEL` (after uppercasing/trimming), which set it
to `cancelled` unconditionally. -/
theorem claim_C6_delivered_monotone_except_rto :
    ∀ (o : WebhookOrder) (status : String), o.orderStatus = "delivered" →
      (applyWebhookStatus o status).orderStatus =
        if jsTrim (jsToUpper status) = "RTO" ∨ jsTrim (jsToUpper status) = "RTO_REQ" ∨
            jsTrim (jsToUpper status) = "RTO_DEL" then "cancelled" else "delivered" := by
  intro o status h
  unfold applyWebhookStatus
  by_cases h0 : status = ""
  · subst h0
    rw [if_pos rfl, if_neg (by decide)]
    exact h
  · rw [if_neg h0]
    exact applyWebhookStatusCore_delivered o _ h

theorem claim_C6_delivered_monotone_except_rto_witness :
    (applyWebhookStatus ⟨"delivered", "delivered", "DEL", "Delivered", false⟩
        "INT").orderStatus =
      if jsTrim (jsToUpper "INT") = "RTO" ∨ jsTrim (jsToUpper "INT") = "RTO_REQ" ∨
          jsTrim (jsToUpper "INT") = "RTO_DEL" then "cancelled" else "delivered" :=
  claim_C6_delivered_monotone_except_rto
    ⟨"delivered", "delivered", "DEL", "Delivered", false⟩ "INT" (by decide)

/-- Folding further cart items whose sellers are already present leaves the
seller key list unchanged. -/
theorem foldl_addSeller_mem (l : List ReqItem) (acc : List String)
    (h : ∀ it ∈ l, it.seller ∈ acc) :
    l.foldl (fun acc it => if it.seller ∈ acc then acc else acc ++ [it.seller]) acc = acc := by
  induction l generalizing acc with
  | nil => rfl
  | cons x xs ih =>
    simp only [List.foldl_cons]
    rw [if_pos (h x (by simp))]
    exact ih acc (fun it hit => h it (by simp [hit]))

/-- A cart made of a nonempty block of seller `a` items followed by a
nonempty block of seller `b` items has exactly the key list `[a, b]`. -/
theorem sellersIn_two (itemsA itemsB : List ReqItem) (a b : String)
    (ha : ∀ it ∈ itemsA, it.seller = a) (hb : ∀ it ∈ itemsB, it.seller = b)
    (hA : itemsA ≠ []) (hB : itemsB ≠ []) (hab : a ≠ b) :
    sellersIn (itemsA ++ itemsB) = [a, b] := by
  obtain ⟨x, xs, rfl⟩ : ∃ x xs, itemsA = x :: xs := by
    cases itemsA with
    | nil => exact absurd rfl hA
    | cons x xs => exact ⟨x, xs, rfl⟩
  obtain ⟨y, ys, rfl⟩ : ∃ y ys, itemsB = y :: ys := by
    cases itemsB with
    | nil => exact absurd rfl hB
    | cons y ys => exact ⟨y, ys, rfl⟩
  have hx : x.seller = a := ha x (by simp)
  have hy : y.seller = b := hb y (by simp)
  unfold sellersIn
  rw [List.foldl_append]
  have step1 :
      (x :: xs).foldl (fun acc it => if it.seller ∈ acc then acc else acc ++ [it.seller]) []
        = [a] := by
    simp only [List.foldl_cons]
    rw [if_neg (by simp), hx]
    exact foldl_addSeller_mem xs [a] (fun it hit => by
      rw [ha it (by simp [hit])]; simp)
  rw [step1]
  simp only [List.foldl_cons]
  rw [if_neg (by simp [hy, Ne.symm hab]), hy]
  exact foldl_addSeller_mem ys [a, b] (fun it hit => by
    rw [hb it (by simp [hit])]; simp)

/-- `itemsBySeller` for a two-seller cart: exactly two groups, each holding
that seller's items. -/
theorem groupBySeller_two (itemsA itemsB : List ReqItem) (a b : String)
    (ha : ∀ it ∈ itemsA, it.seller = a) (hb : ∀ it ∈ itemsB, it.seller = b)
    (hA : itemsA ≠ []) (hB : itemsB ≠ []) (hab : a ≠ b) :
    groupBySeller (itemsA ++ itemsB) = [(a, itemsA), (b, itemsB)] := by
  unfold groupBySeller
  rw [sellersIn_two itemsA itemsB a b ha hb hA hB hab]
  have hfa : (itemsA ++ itemsB).filter (fun it => it.seller = a) = itemsA := by
    rw [List.filter_append]
    rw [List.filter_eq_self.mpr (fun it hit => by simp [ha it hit])]
    rw [List.filter_eq_nil_iff.mpr (fun it hit => by simp [hb it hit, Ne.symm hab])]
    simp
  have hfb : (itemsA ++ itemsB).filter (fun it => it.seller = b) = itemsB := by
    rw [List.filter_append]
    rw [List.filter_eq_nil_iff.mpr (fun it hit => by simp [ha it hit, hab])]
    rw [List.filter_eq_self.mpr (fun it hit => by simp [hb it hit])]
    simp
  simp only [List.map_cons, List.map_nil]
  rw [hfa, hfb]

/-- When the seller loop finishes without error it has created one order
per seller group. -/
theorem processGroups_length_of_no_err
    (f : List Product → String → List ReqItem → List Product × Option OrderRec × Option String)
    (hf : ∀ st s its, (f st s its).2.2 = none → (f st s its).2.1.isSome) :
    ∀ (gs : List (String × List ReqItem)) (store st : List Product) (ords : List OrderRec),
      processGroups f store gs = (st, ords, none) → ords.length = gs.length := by
  intro gs
  induction gs with
  | nil =>
    intro store st ords h
    simp only [processGroups, Prod.mk.injEq] at h
    simp [← h.2.1]
  | cons g rest ih =>
    intro store st ords h
    obtain ⟨s, its⟩ := g
    rcases h2 : f store s its with ⟨st1, oord, oerr⟩
    cases oord with
    | none =>
      cases oerr with
      | none =>
        have h3 := hf store s its (by rw [h2])
        rw [h2] at h3
        simp at h3
      | some e =>
        simp only [processGroups, h2] at h
        simp at h
    | some ord =>
      cases oerr with
      | none =>
        simp only [processGroups, h2] at h
        rcases h3 : processGroups f st1 rest with ⟨st2, ords2, err2⟩
        rw [h3] at h
        simp only [Prod.mk.injEq] at h
        obtain ⟨hst, hords, herr⟩ := h
        have h4 := ih st1 st2 ords2 (by rw [h3, herr])
        simp [← hords, h4]
      | some e =>
        simp only [processGroups, h2] at h
        simp at h

/-- Every order the seller loop creates comes out of the per-group order
constructor. -/
theorem processGroups_orders_prop
    (f : List Product → String → List ReqItem → List Product × Option OrderRec × Option String)
    (P : OrderRec → Prop)
    (hf : ∀ st s its st1 ord e, f st s its = (st1, some ord, e) → P ord) :
    ∀ (gs : List (String × List ReqItem)) (store : List Product),
      ∀ o ∈ (processGroups f store gs).2.1, P o := by
  intro gs
  induction gs with
  | nil =>
    intro store o ho
    simp [processGroups] at ho
  | cons g rest ih =>
    intro store o ho
    obtain ⟨s, its⟩ := g
    rcases h2 : f store s its with ⟨st1, oord, oerr⟩
    cases oord with
    | none =>
      simp only [processGroups, h2] at ho
      cases oerr <;> simp at ho
    | some ord =>
      cases oerr with
      | none =>
        simp only [processGroups, h2] at ho
        rcases h3 : processGroups f st1 rest with ⟨st2, ords2, err2⟩
        rw [h3] at ho
        simp only [List.mem_cons] at ho
        rcases ho with rfl | ho
        · exact hf store s its st1 o none h2
        · have h4 := ih st1 o
          rw [h3] at h4
          exact h4 ho
      | some e =>
        simp only [processGroups, h2] at ho
        simp at ho

/-- A COD group that yields an order yields it via `mkOrderCOD`. -/
theorem processGroupCOD_some_shape (st : List Product) (s : String) (its : List ReqItem)
    (d : Option ℚ) (st1 : List Product) (ord : OrderRec) (e : Option String)
    (h : processGroupCOD st s its d = (st1, some ord, e)) :
    ∃ ois, ord = mkOrderCOD s ois d := by
  unfold processGroupCOD at h
  rcases hp : processItemsCOD st s its with ⟨st2, ois, oerr⟩
  rw [hp] at h
  cases oerr with
  | none =>
    simp only [Prod.mk.injEq, Option.some.injEq] at h
    exact ⟨ois, h.2.1.symm⟩
  | some e2 => simp at h

/-- An error-free COD group always yields an order. -/
theorem processGroupCOD_err_isSome (st : List Product) (s : String) (its : List ReqItem)
    (d : Option ℚ)
    (h : (processGroupCOD st s its d).2.2 = none) :
    (processGroupCOD st s its d).2.1.isSome := by
  unfold processGroupCOD at h ⊢
  rcases hp : processItemsCOD st s its with ⟨st2, ois, oerr⟩
  cases oerr with
  | none => rfl
  | some e2 =>
    rw [hp] at h
    exact Option.noConfusion h

theorem mkOrderCOD_totalPrice (s : String) (ois : List OrderItem) (d : Option ℚ) :
    (mkOrderCOD s ois d).totalPrice = (mkOrderCOD s ois d).itemsPrice - jsNumOr d 0 := by
  simp [mkOrderCOD, computeTotalPrice]

/-- Claim C4 counterexample: a two-seller cart (subtotals 100 and 300) with
a cart-level discount of 40 yields per-order totals 60 and 260 — the FULL
discount is subtracted from each seller order, not a proportional share
(which would give 90 and 270). -/
theorem claim_C4_counterexample :
    ((createOrder [⟨"p1", "A", "s1", 100, 5, 0⟩, ⟨"p2", "B", "s2", 300, 5, 0⟩]
        [⟨"p1", "s1", 1⟩, ⟨"p2", "s2", 1⟩] (some 40)).2.1.map OrderRec.totalPrice
      = [60, 260]) ∧
    (60 : ℚ) ≠ 100 - 40 * (100 / 400) ∧
    (260 : ℚ) ≠ 300 - 40 * (300 / 400) := by decide

/-- Claim C4 (amended): a checkout cart spanning two sellers produces
exactly two Order records, and each record's `totalPrice` equals that
seller's item subtotal minus the FULL cart-level discount (not a
proportional share). -/
theorem claim_C4_two_seller_split :
    ∀ (store : List Product) (itemsA itemsB : List ReqItem) (a b : String) (d : Option ℚ)
      (st : List Product) (ords : List OrderRec),
      (∀ it ∈ itemsA, it.seller = a) → (∀ it ∈ itemsB, it.seller = b) →
      itemsA ≠ [] → itemsB ≠ [] → a ≠ b →
      createOrder store (itemsA ++ itemsB) d = (st, ords, none) →
      ords.length = 2 ∧
      ∀ o ∈ ords, o.totalPrice = o.itemsPrice - jsNumOr d 0 := by
  intro store A B a b d st ords ha hb hA hB hab h
  unfold createOrder at h
  rw [groupBySeller_two A B a b ha hb hA hB hab] at h
  constructor
  · exact processGroups_length_of_no_err _
      (fun st2 s its => processGroupCOD_err_isSome st2 s its d) _ store st ords h
  · intro o ho
    have hmem := processGroups_orders_prop
      (fun st2 s its => processGroupCOD st2 s its d)
      (fun o => o.totalPrice = o.itemsPrice - jsNumOr d 0)
      (fun st2 s its st1 ord e h2 => by
        obtain ⟨ois, rfl⟩ := processGroupCOD_some_shape st2 s its d st1 ord e h2
        exact mkOrderCOD_totalPrice s ois d)
      [(a, A), (b, B)] store o
    rw [h] at hmem
    exact hmem ho

theorem claim_C4_two_seller_split_witness :
    ([⟨"s1", [⟨"p1", "A", 100, 1⟩], 100, 0, 0, 60, 7, 93, 40, "pending", "pending"⟩,
      ⟨"s2", [⟨"p2", "B", 300, 1⟩], 300, 0, 0, 260, 21, 279, 40, "pending", "pending"⟩] :
        List OrderRec).length = 2 ∧
    ∀ o ∈ ([⟨"s1", [⟨"p1", "A", 100, 1⟩], 100, 0, 0, 60, 7, 93, 40, "pending", "pending"⟩,
            ⟨"s2", [⟨"p2", "B", 300, 1⟩], 300, 0, 0, 260, 21, 279, 40, "pending", "pending"⟩] :
        List OrderRec), o.totalPrice = o.itemsPrice - jsNumOr (some 40) 0 :=
  claim_C4_two_seller_split
    [⟨"p1", "A", "s1", 100, 5, 0⟩, ⟨"p2", "B", "s2", 300, 5, 0⟩]
    [⟨"p1", "s1", 1⟩] [⟨"p2", "s2", 1⟩] "s1" "s2" (some 40)
    [⟨"p1", "A", "s1", 100, 5, 1⟩, ⟨"p2", "B", "s2", 300, 5, 1⟩]
    [⟨"s1", [⟨"p1", "A", 100, 1⟩], 100, 0, 0, 60, 7, 93, 40, "pending", "pending"⟩,
     ⟨"s2", [⟨"p2", "B", 300, 1⟩], 300, 0, 0, 260, 21, 279, 40, "pending", "pending"⟩]
    (by decide) (by decide) (by decide) (by decide) (by decide) (by decide)

/-- Claim C5 counterexample: a two-seller online cart where the second
seller's product is out of stock — the checkout reports
`InsufficientStock`, yet the first seller's order is already persisted and
its stock decrement (5 → 4) remains applied. -/
theorem claim_C5_counterexample :
    (createOrderWithPayment [⟨"p1", "A", "s1", 100, 5, 0⟩, ⟨"p2", "B", "s2", 300, 0, 0⟩]
        [⟨"p1", "s1", 1⟩, ⟨"p2", "s2", 1⟩] (some 40)).2.2 = some "InsufficientStock" ∧
    (createOrderWithPayment [⟨"p1", "A", "s1", 100, 5, 0⟩, ⟨"p2", "B", "s2", 300, 0, 0⟩]
        [⟨"p1", "s1", 1⟩, ⟨"p2", "s2", 1⟩] (some 40)).2.1.length = 1 ∧
    (findProduct (createOrderWithPayment [⟨"p1", "A", "s1", 100, 5, 0⟩,
        ⟨"p2", "B", "s2", 300, 0, 0⟩]
        [⟨"p1", "s1", 1⟩, ⟨"p2", "s2", 1⟩] (some 40)).1 "p1").map Product.stock = some 4 := by
  decide

/-- Claim C5 (amended): on the online path an `InsufficientStock` error
aborts the current and remaining seller groups, but there is no rollback —
orders persisted for seller groups processed earlier remain, as do the
stock decrements already applied. -/
theorem claim_C5_insufficient_stock_no_rollback :
    ∀ (store st1 st2 : List Product) (itemsA itemsB : List ReqItem) (a b : String)
      (d : Option ℚ) (ordA : OrderRec) (e : String),
      (∀ it ∈ itemsA, it.seller = a) → (∀ it ∈ itemsB, it.seller = b) →
      itemsA ≠ [] → itemsB ≠ [] → a ≠ b →
      processGroupPay store a itemsA d = (st1, some ordA, none) →
      processGroupPay st1 b itemsB d = (st2, none, some e) →
      createOrderWithPayment store (itemsA ++ itemsB) d = (st2, [ordA], some e) := by
  intro store st1 st2 A B a b d ordA e ha hb hA hB hab h1 h2
  unfold createOrderWithPayment
  rw [groupBySeller_two A B a b ha hb hA hB hab]
  simp only [processGroups, h1, h2]

theorem claim_C5_insufficient_stock_no_rollback_witness :
    createOrderWithPayment [⟨"p1", "A", "s1", 100, 5, 0⟩, ⟨"p2", "B", "s2", 300, 0, 0⟩]
        ([⟨"p1", "s1", 1⟩] ++ [⟨"p2", "s2", 1⟩]) (some 40) =
      ([⟨"p1", "A", "s1", 100, 4, 1⟩, ⟨"p2", "B", "s2", 300, 0, 0⟩],
       [⟨"s1", [⟨"p1", "A", 100, 1⟩], 100, 0, 0, 60, 7, 93, 40, "confirmed", "paid"⟩],
       some "InsufficientStock") :=
  claim_C5_insufficient_stock_no_rollback
    [⟨"p1", "A", "s1", 100, 5, 0⟩, ⟨"p2", "B", "s2", 300, 0, 0⟩]
    [⟨"p1", "A", "s1", 100, 4, 1⟩, ⟨"p2", "B", "s2", 300, 0, 0⟩]
    [⟨"p1", "A", "s1", 100, 4, 1⟩, ⟨"p2", "B", "s2", 300, 0, 0⟩]
    [⟨"p1", "s1", 1⟩] [⟨"p2", "s2", 1⟩] "s1" "s2" (some 40)
    ⟨"s1", [⟨"p1", "A", 100, 1⟩], 100, 0, 0, 60, 7, 93, 40, "confirmed", "paid"⟩
    "InsufficientStock"
    (by decide) (by decide) (by decide) (by decide) (by decide) (by decide) (by decide)
